import Mathlib

/-!
Verification of the `rpctools.jsonrpc` client library (Python 2).

The definitions below are a shallow embedding of the source files
`rpctools/jsonrpc/client.py`, `transport.py`, `pool.py`, `ssl_wrapper.py`
and `exc.py`.  Python dictionaries are modelled as association lists with
Python's in-place assignment semantics (replace the existing key, else
append); machine-level details that the claims do not touch (sockets,
actual TLS handshakes) appear as parameters of the embedded functions.
-/

/-- ASCII lower-casing of a string, one character at a time.  Models Python's
`str.lower()` and the effect of `re.I` for the ASCII strings handled here
(`Char.toLower` maps exactly the range A-Z to a-z). -/
def lowerStr (s : String) : String :=
  String.mk (s.toList.map Char.toLower)

/-- Decoded JSON values, as produced by `json.loads` in Python 2 (strings
decode to `unicode`, objects to `dict`, preserving the shapes the client
inspects).  Object entries are kept in a list; the claims only ever use
objects with distinct keys. -/
inductive Json
  | null
  | bool (b : Bool)
  | num (n : Int)
  | str (s : String)
  | arr (elts : List Json)
  | obj (entries : List (String × Json))

/-- Models the Python test `decoded is None` in `ServerProxy._request`
(client.py line 200): only the decoded form of the literal JSON `null`
is the `None` object. -/
def Json.isNull : Json → Bool
  | .null => true
  | _ => false

/-- Python truthiness of a decoded JSON value, as used by
`if 'error' in decoded and decoded['error']:` (client.py line 210). -/
def Json.truthy : Json → Bool
  | .null => false
  | .bool b => b
  | .num n => n != 0
  | .str s => s != ""
  | .arr l => !l.isEmpty
  | .obj l => !l.isEmpty

/-- Python equality of a JSON element against a string key, as used by the
`in` operator on lists: a string compares equal only to an equal string. -/
def Json.eqStr (key : String) : Json → Bool
  | .str s => s == key
  | _ => false

/-- Contiguous-sublist test on character lists, used to model Python's
substring operator `in` on strings. -/
def charSub (needle : List Char) : List Char → Bool
  | [] => needle.isEmpty
  | c :: t => needle.isPrefixOf (c :: t) || charSub needle t

/-- Models the Python expression `key in decoded` for a decoded JSON value:
key lookup for dicts, membership for lists, substring test for strings;
`none` models the `TypeError` raised for the remaining types. -/
def pyContains (key : String) : Json → Option Bool
  | .obj l => some (l.any (fun p => p.1 == key))
  | .arr l => some (l.any (Json.eqStr key))
  | .str s => some (charSub key.toList s.toList)
  | _ => none

/-- Models the Python expression `decoded[key]`: dict lookup (with `none`
for a `KeyError`); `none` also models the `TypeError` raised when indexing
a non-dict with a string. -/
def pyGetItem (j : Json) (key : String) : Option Json :=
  match j with
  | .obj l => (l.find? (fun p => p.1 == key)).map (·.2)
  | _ => none

/-- Python 2 `repr` of a decoded string (a `unicode` object): `u` prefix and
single quotes.  Modelled for strings without quotes or escape characters,
which covers every string the theorems below evaluate it on. -/
def pyReprStr (s : String) : String :=
  "u\x27" ++ s ++ "\x27"

mutual

/-- Python 2 `repr` of a decoded JSON value.  Dict entries are printed in
list order, which agrees with Python on dicts with at most one entry (the
only dicts whose `repr` the theorems below evaluate). -/
def pyRepr : Json → String
  | .null => "None"
  | .bool true => "True"
  | .bool false => "False"
  | .num n => toString n
  | .str s => pyReprStr s
  | .arr l => "[" ++ pyReprElts l ++ "]"
  | .obj l => "\x7b" ++ pyReprEntries l ++ "\x7d"

/-- Comma-joined `repr`s of the elements of a decoded JSON list. -/
def pyReprElts : List Json → String
  | [] => ""
  | [j] => pyRepr j
  | j :: rest => pyRepr j ++ ", " ++ pyReprElts rest

/-- Comma-joined `key: value` `repr`s of the entries of a decoded dict. -/
def pyReprEntries : List (String × Json) → String
  | [] => ""
  | [p] => pyReprStr p.1 ++ ": " ++ pyRepr p.2
  | p :: rest => pyReprStr p.1 ++ ": " ++ pyRepr p.2 ++ ", " ++ pyReprEntries rest

end

/-- The truncation applied in `ServerProxy._request` (client.py lines
205-207): `if len(r) > 256: r = r[0:255] + '...'`. -/
def truncateRepr (r : String) : String :=
  if r.length > 256 then String.mk (r.toList.take 255) ++ "..." else r

/-- Outcome of the response-decoding half of `ServerProxy._request`
(client.py lines 190-216).  `pyError` models an uncaught Python
`TypeError`/`KeyError` escaping from `_request` itself. -/
inductive RpcOutcome
  | success (result : Option Json)
  | responseError (msg : String)
  | fault (code : Json) (message : Json)
  | pyError

/-- The response-decoding half of `ServerProxy._request` (client.py lines
190-216).  `parsed` is the result of `json.loads(data)`: `Except.error e`
models a parse exception with text `e`.  Mirrors the source line by line:
the `decoded is None` special case, the missing-result-and-error check with
its truncated `repr`, the fault branch, the missing-`result` check and the
final `return decoded['result']`. -/
def decodeResponse (parsed : Except String Json) (methodname : String) : RpcOutcome :=
  match parsed with
  | .error e => .responseError ("Unable to parse response data as JSON: " ++ e)
  | .ok decoded =>
    if decoded.isNull then .success none
    else
      match pyContains "result" decoded with
      | none => .pyError
      | some hasResult =>
        match pyContains "error" decoded with
        | none => .pyError
        | some hasError =>
          if !(hasResult || hasError) then
            .responseError ("Malformed JSON-RPC response to " ++ methodname ++ ": "
              ++ truncateRepr (pyRepr decoded))
          else
            let takeResult : RpcOutcome :=
              if !hasResult then
                .responseError ("Malformed JSON-RPC response: " ++ pyRepr decoded)
              else
                match pyGetItem decoded "result" with
                | some r => .success (some r)
                | none => .pyError
            if hasError then
              match pyGetItem decoded "error" with
              | none => .pyError
              | some errVal =>
                if errVal.truthy then
                  match pyGetItem errVal "code" with
                  | none => .pyError
                  | some c =>
                    match pyGetItem errVal "message" with
                    | none => .pyError
                    | some m => .fault c m
                else takeResult
            else takeResult

/-- The single-`*` hostname-glob matcher produced by
`CertValidatingHTTPSConnection._ValidateCertificateHostname`
(ssl_wrapper.py lines 116-121).  The source builds the regular expression
`'^' + host.replace('.', '\.').replace('*', '[^.]*') + '$'` and tests the
hostname with `re.search(..., re.I)`: every `*` of the pattern matches a
(possibly empty) run of non-dot characters, every other character matches
itself case-insensitively (ASCII), anchored at both ends.  This function is
that matcher for patterns whose non-`*` characters are regex-literals after
the dot escaping, i.e. letters, digits, `-`, `.` and `_` (the hostname
alphabet); other regex metacharacters in a certificate pattern are not
modelled. -/
def globMatch : List Char → List Char → Bool
  | [], s => s.isEmpty
  | p :: ps, s =>
      if p = '*' then
        (List.range ((s.takeWhile (fun c => c != '.')).length + 1)).any
          (fun i => globMatch ps (s.drop i))
      else
        match s with
        | [] => false
        | c :: cs => (Char.toLower p == Char.toLower c) && globMatch ps cs

/-- A negotiated peer certificate as returned by `sock.getpeercert()`:
an optional `subjectAltName` list of `(type, value)` pairs, and the
`subject` field.  The source reads only the first `(key, value)` pair
`x[0]` of each relative distinguished name in `cert['subject']`, so each
subject entry is modelled by that first pair. -/
structure PeerCert where
  subjectAltName : Option (List (String × String))
  subject : List (String × String)

/-- `CertValidatingHTTPSConnection._GetValidHostsForCert` (ssl_wrapper.py
lines 93-105): all DNS-typed subjectAltName values when the certificate has
a `subjectAltName` key, otherwise all commonName values from the subject. -/
def GetValidHostsForCert (cert : PeerCert) : List String :=
  match cert.subjectAltName with
  | some san => (san.filter (fun x => lowerStr x.1 == "dns")).map (·.2)
  | none => (cert.subject.filter (fun x => lowerStr x.1 == "commonname")).map (·.2)

/-- `CertValidatingHTTPSConnection._ValidateCertificateHostname`
(ssl_wrapper.py lines 107-121): the hostname is accepted iff some candidate
host glob of the certificate matches it. -/
def ValidateCertificateHostname (cert : PeerCert) (hostname : String) : Bool :=
  (GetValidHostsForCert cert).any (fun h => globMatch h.toList hostname.toList)

/-- The exceptions that can escape the HTTP exchange inside the `try` block
of `Transport.request` (transport.py lines 85-97).  All three are instances
of `socket.error` or `httplib.HTTPException`; in particular
`InvalidCertificateException` (ssl_wrapper.py lines 42-55) subclasses
`httplib.HTTPException`, so it too is caught by
`except (socket.error, httplib.HTTPException)`. -/
inductive PyExc
  | socketError (msg : String)
  | httpException (msg : String)
  | invalidCertificate (host : String) (reason : String)
deriving DecidableEq

/-- Python 2 `repr` of the caught exception, as interpolated by
`"Error connecting to host %s: %r" % (host, x)` (transport.py line 96).
`InvalidCertificateException.__init__` calls
`httplib.HTTPException.__init__(self)` with no arguments, so its `repr`
shows an empty argument list. -/
def PyExc.reprStr : PyExc → String
  | .socketError m => "error(" ++ "\x27" ++ m ++ "\x27" ++ ",)"
  | .httpException m => "HTTPException(" ++ "\x27" ++ m ++ "\x27" ++ ",)"
  | .invalidCertificate _ _ => "InvalidCertificateException()"

/-- An HTTP response as read by `conn.getresponse()`: status code and
reason phrase. -/
structure HttpResponse where
  status : Nat
  reason : String
deriving DecidableEq

/-- Python dict lookup `d[k]` as an option, on a string-keyed dict
modelled as an association list in insertion order. -/
def pyDictGet {α : Type} (l : List (String × α)) (k : String) : Option α :=
  (l.find? (fun p => p.1 == k)).map (·.2)

/-- Python dict assignment `d[k] = v`, performed in place: replace the
value of an existing key, else append the binding. -/
def pyDictSet {α : Type} (l : List (String × α)) (k : String) (v : α) : List (String × α) :=
  if l.any (fun p => p.1 == k) then l.map (fun p => if p.1 == k then (k, v) else p)
  else l ++ [(k, v)]

/-- Python `del d[k]`: removes the binding for the key (the caller checks
presence; on an absent key Python raises `KeyError`, which the model
handles at the call sites). -/
def pyDictDel {α : Type} (l : List (String × α)) (k : String) : List (String × α) :=
  l.filter (fun p => p.1 != k)

/-- The thread-local connection pool `pool.connections` (pool.py lines
19-30): a dict from host string to connection, with connections modelled by
numeric identities. -/
abbrev Pool := List (String × Nat)

/-- What a `Transport.request` call produced: the returned response, a
raised `ProtocolError` (exc.py lines 33-49, carrying `host + handler`, the
status code and the reason), a raised `ConnectionError` (exc.py lines
26-31), the distinct `InvalidCertificateException` escaping uncaught (the
source never produces this from `request`, the constructor exists so the
distinction is expressible), or an uncaught `KeyError` from pool
eviction. -/
inductive ReqOutcome
  | response (r : HttpResponse)
  | protocolError (url : String) (errcode : Nat) (errmsg : String)
  | connectionError (msg : String)
  | invalidCertificateError (host : String) (reason : String)
  | keyError
deriving DecidableEq

/-- Whether the surfaced error is the distinct invalid-certificate
exception. -/
def ReqOutcome.isInvalidCert : ReqOutcome → Bool
  | .invalidCertificateError _ _ => true
  | _ => false

/-- The observable result of one `Transport.request` call: the outcome, the
connection pool afterwards, whether `handle_connection_error` ran, and the
identity of the connection the exchange used. -/
structure ReqResult where
  outcome : ReqOutcome
  pool : List (String × Nat)
  handleErrInvoked : Bool
  connUsed : Nat
deriving DecidableEq

/-- One `Transport.request` call (transport.py lines 45-97), optionally
through `TLSConnectionPoolMixin` (pool.py lines 47-75, the
`TLSConnectionPool*Transport` classes).  `pool0` is the thread-local pool
before the call, `fresh` the identity of the connection `connect` would
newly create, and `behavior` gives the exchange result of each connection:
`Except.error e` models `conn.request`/`conn.getresponse` raising `e`
(including the lazy SSL connect performed inside `conn.request`).
Mirrors the source: pooled `connect` returns the cached connection or
caches a fresh one; a non-200 status raises `ProtocolError` inside the
`try` block (not caught by the `except` clause, which catches only
`socket.error` and `httplib.HTTPException`); a caught exchange exception
first runs `handle_connection_error` (the pool mixin deletes the host's
entry, raising `KeyError` if absent; the base class's stub does nothing)
and then re-raises as `ConnectionError` with the original exception's
`repr` in the message. -/
def transportRequest (pooled : Bool) (pool0 : Pool) (fresh : Nat)
    (behavior : Nat → Except PyExc HttpResponse) (host handler : String) : ReqResult :=
  let conn := if pooled then (pyDictGet pool0 host).getD fresh else fresh
  let pool1 := if pooled && (pyDictGet pool0 host).isNone
               then pyDictSet pool0 host fresh else pool0
  match behavior conn with
  | .ok resp =>
      if resp.status ≠ 200 then
        ⟨.protocolError (host ++ handler) resp.status resp.reason, pool1, false, conn⟩
      else ⟨.response resp, pool1, false, conn⟩
  | .error e =>
      if pooled then
        match pyDictGet pool1 host with
        | some _ =>
            ⟨.connectionError ("Error connecting to host " ++ host ++ ": " ++ e.reprStr),
              pyDictDel pool1 host, true, conn⟩
        | none => ⟨.keyError, pool1, true, conn⟩
      else
        ⟨.connectionError ("Error connecting to host " ++ host ++ ": " ++ e.reprStr),
          pool1, true, conn⟩

/-- An HTTP header value: the client's dicts hold strings and, for
`Content-Length`, the integer `len(body)` (transport.py line 83). -/
inductive HVal
  | str (s : String)
  | int (n : Nat)
deriving DecidableEq

/-- A Python header dict, as an association list in insertion order. -/
abbrev Headers := List (String × HVal)

/-- The lower-cased key set `header_keys_lower` computed in
`Transport.request` (transport.py line 77). -/
def lowerKeys (h : Headers) : List String :=
  h.map (fun p => lowerStr p.1)

/-- The header mutations of `Transport.request` (transport.py lines 77-83),
performed in place on the caller's dict: set `User-Agent`, set
`Content-Type: application/json` unless a content-type key (compared
case-insensitively against the keys present on entry) already exists, and
set `Content-Length` to the body length. -/
def injectTransportHeaders (h : Headers) (bodyLen : Nat) : Headers :=
  let lk := lowerKeys h
  let h1 := pyDictSet h "User-Agent" (.str "JSON-RPC Client")
  let h2 := if lk.any (fun x => x == "content-type") then h1
            else pyDictSet h1 "Content-Type" (.str "application/json")
  pyDictSet h2 "Content-Length" (.int bodyLen)

/-- The full header mutation of one request: the pooled transports first
set `Connection: keep-alive` (`TLSConnectionPoolMixin.request`, pool.py
lines 47-54) on the same dict, then `Transport.request` injects its
headers. -/
def requestHeaders (pooled : Bool) (h : Headers) (bodyLen : Nat) : Headers :=
  injectTransportHeaders
    (if pooled then pyDictSet h "Connection" (.str "keep-alive") else h) bodyLen

/-- The mutable per-client state of `ServerProxy` touched by `_request`:
the request id counter and the `extra_headers` dict. -/
structure ClientState where
  id : Int
  extra_headers : Headers
deriving DecidableEq

/-- The state mutation one `ServerProxy._request` call performs on the
client (client.py lines 176-186): the id is incremented, and because
`headers = self.extra_headers` passes the dict itself (no copy) to
`self.transport.request`, every header the transport injects lands in
`extra_headers` permanently.  `bodyLen` is `len(json.dumps(data))`. -/
def clientAfterCall (pooled : Bool) (st : ClientState) (bodyLen : Nat) : ClientState :=
  { id := st.id + 1,
    extra_headers := requestHeaders pooled st.extra_headers bodyLen }

/-- The TLS-relevant fields a `SafeTransport` instance stores
(transport.py lines 130-135). -/
structure SafeTransportCfg where
  key_file : Option String
  cert_file : Option String
  ca_certs : Option String
  validate_cert_hostname : Bool
deriving DecidableEq

/-- The transport object `ServerProxy.__init__` selects (client.py lines
144-154): with `pool_connections` true it constructs
`TLSConnectionPoolSafeTransport(timeout=timeout)` (resp.
`TLSConnectionPoolTransport(timeout=timeout)`), whose `SafeTransport`
initializer then runs with its default arguments
`key_file=None, cert_file=None, ca_certs=None,
validate_cert_hostname=True`; without pooling it constructs
`SafeTransport` with the proxy's configured TLS parameters (resp. a plain
`Transport`). -/
inductive TransportChoice
  | plain
  | safe (cfg : SafeTransportCfg)
  | pooledPlain
  | pooledSafe (cfg : SafeTransportCfg)
deriving DecidableEq

/-- The transport-selection logic of `ServerProxy.__init__` (client.py
lines 125-154).  `none` models the `JsonRpcError` raised for a scheme other
than http or https. -/
def serverProxyTransport (scheme : String) (key_file cert_file ca_certs : Option String)
    (validate_cert_hostname : Bool) (pool_connections : Bool) : Option TransportChoice :=
  if scheme ≠ "http" ∧ scheme ≠ "https" then none
  else some (
    if pool_connections then
      if scheme = "https" then .pooledSafe ⟨none, none, none, true⟩
      else .pooledPlain
    else
      if scheme = "https" then
        .safe ⟨key_file, cert_file, ca_certs, validate_cert_hostname⟩
      else .plain)

/-- Python truthiness of an optional string, as used by
`if self.ca_certs:` (ssl_wrapper.py line 88): `None` and the empty string
are falsy. -/
def pyTruthyOptStr : Option String → Bool
  | none => false
  | some s => s != ""

/-- Index of the last occurrence of a character, modelling Python's
`host.rfind(c)` (which `httplib.HTTPConnection._set_hostport` uses);
`none` models the return value -1. -/
def rfindIdx (c : Char) : List Char → Option Nat
  | [] => none
  | a :: as =>
      match rfindIdx c as with
      | some k => some (k + 1)
      | none => if a = c then some 0 else none

/-- The bracket stripping of `httplib.HTTPConnection._set_hostport`
(Python 2.7): `if host and host[0] == '[' and host[-1] == ']':
host = host[1:-1]`. -/
def bracketStrip (h : List Char) : List Char :=
  if h ≠ [] ∧ h.head? = some '[' ∧ h.getLast? = some ']'
  then (h.drop 1).dropLast else h

/-- Numeric value of a digit string (used for the port). -/
def digitsToNat (s : List Char) : Nat :=
  s.foldl (fun acc c => 10 * acc + (c.toNat - 48)) 0

/-- `httplib.HTTPConnection._set_hostport(host, port)` from the Python 2.7
standard library, which `httplib.HTTPConnection.__init__` — and therefore
`CertValidatingHTTPSConnection.__init__` (ssl_wrapper.py line 82) — runs at
construction time.  With an explicit port the host string is stored as
given; with `port=None` the substring after the last `:` (when it comes
after any `]`) is parsed as the port and `self.host` keeps only the part
before it, else the default HTTPS port 443 is used.  `none` models the
`InvalidURL` raised for a non-numeric port.  Port strings are modelled for
the digits-only case; Python's `int` also tolerates surrounding whitespace
and a sign, which no claim exercises. -/
def setHostPort (host : List Char) (port : Option Nat) : Option (List Char × Nat) :=
  match port with
  | some p => some (host, p)
  | none =>
      let i := rfindIdx ':' host
      let j := rfindIdx ']' host
      if ((i.map (Int.ofNat)).getD (-1)) > ((j.map (Int.ofNat)).getD (-1)) then
        match i with
        | some k =>
            let portStr := host.drop (k + 1)
            if portStr ≠ [] ∧ portStr.all Char.isDigit then
              some (bracketStrip (host.take k), digitsToNat portStr)
            else none
        | none => some (bracketStrip host, 443)
      else some (bracketStrip host, 443)

/-- The state of a `CertValidatingHTTPSConnection` after `__init__`
(ssl_wrapper.py lines 68-91): the host and port stored by
`httplib.HTTPConnection.__init__`, the TLS file parameters, the
hostname-validation toggle, and `cert_reqs`, which is `ssl.CERT_REQUIRED`
(the integer 2) when `ca_certs` is truthy and `ssl.CERT_NONE` (0)
otherwise. -/
structure ConnState where
  host : List Char
  port : Nat
  key_file : Option String
  cert_file : Option String
  ca_certs : Option String
  validate_cert_hostname : Bool
  cert_reqs : Nat
deriving DecidableEq

/-- `CertValidatingHTTPSConnection.__init__` (ssl_wrapper.py lines 68-91):
store host and port as `_set_hostport` computes them, keep the TLS
parameters, and derive `cert_reqs` from the truthiness of `ca_certs`.
`none` models the `InvalidURL` propagating from `_set_hostport`. -/
def mkCertValidatingConn (host : String) (port : Option Nat)
    (key_file cert_file ca_certs : Option String)
    (validate_cert_hostname : Bool) : Option ConnState :=
  (setHostPort host.toList port).map (fun hp =>
    ⟨hp.1, hp.2, key_file, cert_file, ca_certs, validate_cert_hostname,
      if pyTruthyOptStr ca_certs then 2 else 0⟩)

/-- Python `s.split(sep, maxsplit)` on character lists: with `maxsplit = 0`
no split is performed and the whole string is returned as the single list
element; otherwise split at the first separator and recurse. -/
def pySplitMax (sep : Char) : List Char → Nat → List (List Char)
  | s, 0 => [s]
  | s, n + 1 =>
      match splitFirstAt sep s with
      | none => [s]
      | some pq => pq.1 :: pySplitMax sep pq.2 n
where
  /-- Split at the first occurrence of the separator, if any. -/
  splitFirstAt (sep : Char) : List Char → Option (List Char × List Char)
    | [] => none
    | c :: cs =>
        if c = sep then some ([], cs)
        else (splitFirstAt sep cs).map (fun pq => (c :: pq.1, pq.2))

/-- The hostname argument `CertValidatingHTTPSConnection.connect` hands to
the validator (ssl_wrapper.py line 133):
`hostname = self.host.split(':', 0)[0]` — a split with `maxsplit=0`,
which performs no splitting at all, so this is `self.host` itself. -/
def connectHostnameArg (st : ConnState) : List Char :=
  (pySplitMax ':' st.host 0).headD []

/-- Whether `connect` validates the peer certificate's hostname, and if so
with which hostname string (ssl_wrapper.py lines 131-135): the check runs
only when `self.cert_reqs & ssl.CERT_REQUIRED` is nonzero and
`self.validate_cert_hostname` is set. -/
def connectValidatorCall (st : ConnState) : Option (List Char) :=
  if (st.cert_reqs &&& 2 ≠ 0) ∧ st.validate_cert_hostname then
    some (connectHostnameArg st)
  else none

/-- `SafeTransport.connect` (transport.py lines 137-142): construct a
`CertValidatingHTTPSConnection` for the host (no explicit port) with the
transport's stored TLS parameters. -/
def safeTransportConnect (cfg : SafeTransportCfg) (host : String) : Option ConnState :=
  mkCertValidatingConn host none cfg.key_file cfg.cert_file cfg.ca_certs
    cfg.validate_cert_hostname

lemma pyDictSet_cons {α : Type} (p : String × α) (t : List (String × α)) (k : String) (v : α) :
    pyDictSet (p :: t) k v =
      if p.1 = k then (k, v) :: t.map (fun q => if q.1 = k then (k, v) else q)
      else p :: pyDictSet t k v := by
  by_cases hpk : p.1 = k
  · simp [pyDictSet, hpk]
  · by_cases hat : t.any (fun q => q.1 == k) = true <;>
      simp [pyDictSet, hpk, hat, List.any_cons]

lemma pyDictGet_cons {α : Type} (p : String × α) (t : List (String × α)) (k : String) :
    pyDictGet (p :: t) k = if p.1 = k then some p.2 else pyDictGet t k := by
  by_cases hpk : p.1 = k <;> simp [pyDictGet, List.find?_cons, hpk]

lemma pyDictGet_mapReplace_ne {α : Type} (t : List (String × α)) (k k' : String) (v : α)
    (hne : k' ≠ k) :
    pyDictGet (t.map (fun q => if q.1 = k then (k, v) else q)) k' = pyDictGet t k' := by
  induction t with
  | nil => rfl
  | cons p r ih =>
      by_cases hpk : p.1 = k
      · simp [pyDictGet_cons, hpk, Ne.symm hne, ih]
      · simp [pyDictGet_cons, hpk, ih]

lemma pyDictGet_set_self {α : Type} (l : List (String × α)) (k : String) (v : α) :
    pyDictGet (pyDictSet l k v) k = some v := by
  induction l with
  | nil => simp [pyDictSet, pyDictGet]
  | cons p t ih =>
      rw [pyDictSet_cons]
      by_cases hpk : p.1 = k
      · simp [hpk, pyDictGet_cons]
      · simp [hpk, pyDictGet_cons, ih]

lemma pyDictGet_set_ne {α : Type} (l : List (String × α)) (k k' : String) (v : α)
    (hne : k' ≠ k) :
    pyDictGet (pyDictSet l k v) k' = pyDictGet l k' := by
  induction l with
  | nil => simp [pyDictSet, pyDictGet, Ne.symm hne]
  | cons p t ih =>
      rw [pyDictSet_cons]
      by_cases hpk : p.1 = k
      · rw [if_pos hpk, pyDictGet_cons, pyDictGet_cons]
        have h2 : ¬((k, v).1 = k') := fun h => hne h.symm
        have h3 : ¬(p.1 = k') := by rw [hpk]; exact fun h => hne h.symm
        rw [if_neg h2, if_neg h3]
        exact pyDictGet_mapReplace_ne t k k' v hne
      · rw [if_neg hpk, pyDictGet_cons, pyDictGet_cons]
        by_cases hpk' : p.1 = k' <;> simp [hpk', ih]

lemma pyDictGet_del_self {α : Type} (l : List (String × α)) (k : String) :
    pyDictGet (pyDictDel l k) k = none := by
  induction l with
  | nil => rfl
  | cons p t ih =>
      by_cases hpk : p.1 = k
      · simpa [pyDictDel, hpk] using ih
      · simpa [pyDictDel, pyDictGet_cons, hpk] using ih

lemma globMatch_literal (p : List Char) (h : List Char)
    (hcase : p.map Char.toLower = h.map Char.toLower) (hstar : '*' ∉ p) :
    globMatch p h = true := by
  induction p generalizing h with
  | nil =>
      have : h = [] := by
        have := hcase.symm
        simpa using this
      simp [this, globMatch]
  | cons a ps ih =>
      cases h with
      | nil => simp at hcase
      | cons b hs =>
          simp only [List.map_cons, List.cons.injEq] at hcase
          have ha : a ≠ '*' := fun h' => hstar (h' ▸ List.mem_cons_self a ps)
          have hstar' : '*' ∉ ps := fun h' => hstar (List.mem_cons_of_mem a h')
          simp [globMatch, ha, hcase.1, ih hs hcase.2 hstar', beq_iff_eq]

lemma truncateRepr_length_le (r : String) : (truncateRepr r).length ≤ 258 := by
  unfold truncateRepr
  split
  · have h1 : (String.mk (r.toList.take 255) ++ "...").length
        = (r.toList.take 255).length + 3 := by
      rw [String.length_append]
      rfl
    rw [h1]
    have h2 : (r.toList.take 255).length ≤ 255 := by
      rw [List.length_take]
      exact min_le_left _ _
    omega
  · omega

lemma rfindIdx_eq_none (c : Char) (s : List Char) (h : c ∉ s) :
    rfindIdx c s = none := by
  induction s with
  | nil => rfl
  | cons a t ih =>
      have hat : c ∉ t := fun h' => h (List.mem_cons_of_mem a h')
      have hac : a ≠ c := fun h' => h (h' ▸ List.mem_cons_self a t)
      simp [rfindIdx, ih hat, hac]

lemma rfindIdx_append_last (c : Char) (n p : List Char)
    (hn : c ∉ n) (hp : c ∉ p) :
    rfindIdx c (n ++ c :: p) = some n.length := by
  induction n with
  | nil => simp [rfindIdx, rfindIdx_eq_none c p hp]
  | cons a t ih =>
      have hat : c ∉ t := fun h' => hn (List.mem_cons_of_mem a h')
      simp [rfindIdx, ih hat]

lemma bracketStrip_of_no_open (h : List Char) (hbr : '[' ∉ h) :
    bracketStrip h = h := by
  unfold bracketStrip
  rw [if_neg]
  rintro ⟨h1, h2, h3⟩
  cases h with
  | nil => exact absurd h2 (by simp)
  | cons a t =>
      apply hbr
      have : a = '[' := by simpa using h2
      exact this ▸ List.mem_cons_self a t

lemma lowerKeys_set (h : Headers) (k : String) (v : HVal) :
    lowerKeys (pyDictSet h k v) = lowerKeys h ∨
    lowerKeys (pyDictSet h k v) = lowerKeys h ++ [lowerStr k] := by
  unfold pyDictSet
  split
  · left
    unfold lowerKeys
    rw [List.map_map]
    apply List.map_congr_left
    intro p _
    by_cases hpk : p.1 = k
    · simp [Function.comp, hpk]
    · simp [Function.comp, hpk]
  · right
    unfold lowerKeys
    simp

lemma lowerKeys_set_keeps_no_ct (h : Headers) (k : String) (v : HVal)
    (hk : lowerStr k ≠ "content-type")
    (hct : (lowerKeys h).any (fun x => x == "content-type") = false) :
    (lowerKeys (pyDictSet h k v)).any (fun x => x == "content-type") = false := by
  rcases lowerKeys_set h k v with heq | heq <;> rw [heq]
  · exact hct
  · simp [List.any_append, hct, hk]

lemma inject_get_ua (h : Headers) (n : Nat) :
    pyDictGet (injectTransportHeaders h n) "User-Agent" = some (.str "JSON-RPC Client") := by
  unfold injectTransportHeaders
  rw [pyDictGet_set_ne _ _ _ _ (by decide)]
  split
  · exact pyDictGet_set_self _ _ _
  · rw [pyDictGet_set_ne _ _ _ _ (by decide)]
    exact pyDictGet_set_self _ _ _

lemma inject_get_cl (h : Headers) (n : Nat) :
    pyDictGet (injectTransportHeaders h n) "Content-Length" = some (.int n) := by
  unfold injectTransportHeaders
  exact pyDictGet_set_self _ _ _

lemma inject_get_ct (h : Headers) (n : Nat)
    (hct : (lowerKeys h).any (fun x => x == "content-type") = false) :
    pyDictGet (injectTransportHeaders h n) "Content-Type"
      = some (.str "application/json") := by
  unfold injectTransportHeaders
  rw [pyDictGet_set_ne _ _ _ _ (by decide)]
  rw [if_neg (by rw [hct]; exact fun hc => Bool.false_ne_true hc)]
  exact pyDictGet_set_self _ _ _

lemma inject_get_other (h : Headers) (n : Nat) (k : String)
    (h1 : k ≠ "User-Agent") (h2 : k ≠ "Content-Type") (h3 : k ≠ "Content-Length") :
    pyDictGet (injectTransportHeaders h n) k = pyDictGet h k := by
  unfold injectTransportHeaders
  rw [pyDictGet_set_ne _ _ _ _ h3]
  split
  · exact pyDictGet_set_ne _ _ _ _ h1
  · rw [pyDictGet_set_ne _ _ _ _ h2]
    exact pyDictGet_set_ne _ _ _ _ h1

/-- C1: the claim fails on the code.  For an https client constructed with
key file, cert file, a trusted CA bundle and hostname verification but with
`pool_connections` true, `ServerProxy.__init__` builds
`TLSConnectionPoolSafeTransport(timeout=timeout)`: the TLS parameters are
dropped, the pooled transport's connections are created with
`ca_certs=None`, hence `cert_reqs = ssl.CERT_NONE` (0) and no peer
verification and no hostname validation at all — whereas without pooling
the same configuration yields `cert_reqs = ssl.CERT_REQUIRED` (2) and a
hostname-validator invocation. -/
theorem c1_pooling_drops_tls_config :
    serverProxyTransport "https" (some "key.pem") (some "cert.pem") (some "ca.pem") true false
      = some (.safe ⟨some "key.pem", some "cert.pem", some "ca.pem", true⟩) ∧
    (safeTransportConnect ⟨some "key.pem", some "cert.pem", some "ca.pem", true⟩
        "example.com").map (fun st => (st.cert_reqs, connectValidatorCall st))
      = some (2, some "example.com".toList) ∧
    serverProxyTransport "https" (some "key.pem") (some "cert.pem") (some "ca.pem") true true
      = some (.pooledSafe ⟨none, none, none, true⟩) ∧
    (safeTransportConnect ⟨none, none, none, true⟩ "example.com").map
        (fun st => (st.cert_reqs, connectValidatorCall st))
      = some (0, none) := by
  refine ⟨by decide, by decide, by decide, by decide⟩

/-- C5: for a certificate whose DNS subjectAltName is the pattern
`*.example.com`, the hostname validator accepts `a.example.com` (also in a
different letter case) but rejects `a.b.example.com` and `example.com`. -/
theorem c5_wildcard_single_label :
    ValidateCertificateHostname ⟨some [("DNS", "*.example.com")], []⟩ "a.example.com" = true ∧
    ValidateCertificateHostname ⟨some [("DNS", "*.example.com")], []⟩ "A.Example.COM" = true ∧
    ValidateCertificateHostname ⟨some [("DNS", "*.example.com")], []⟩ "a.b.example.com" = false ∧
    ValidateCertificateHostname ⟨some [("DNS", "*.example.com")], []⟩ "example.com" = false := by
  refine ⟨by decide, by decide, by decide, by decide⟩

/-- C7: a response body that decodes to the literal JSON `null` makes
`ServerProxy._request` return `None` successfully, for every method name;
no error is raised for that body. -/
theorem c7_null_body_success (methodname : String) :
    decodeResponse (.ok Json.null) methodname = .success none := rfl

/-- C3 fails on the code: when the hostname validator rejects the peer
certificate during a pooled request, the `InvalidCertificateException`
(a subclass of `httplib.HTTPException`) is caught by `Transport.request`'s
`except` clause and the error surfaced to the caller is a generic
`ConnectionError`, not the distinct invalid-certificate error. -/
theorem c3_counterexample :
    (transportRequest true [] 7
        (fun _ => .error (.invalidCertificate "example.com" "hostname mismatch"))
        "example.com" "/rpc").outcome
      = .connectionError "Error connecting to host example.com: InvalidCertificateException()" ∧
    ((transportRequest true [] 7
        (fun _ => .error (.invalidCertificate "example.com" "hostname mismatch"))
        "example.com" "/rpc").outcome).isInvalidCert = false := by
  refine ⟨by decide, by decide⟩

set_option maxRecDepth 8192 in
/-- C4 fails on the code: for a decoded object with neither `result` nor
`error` whose `repr` is 311 characters long, `ServerProxy._request` raises
the format error, but the representation embedded in the message is
`r[0:255] + '...'`, which is 258 characters — more than the claimed bound
of 256. -/
theorem c4_counterexample :
    (truncateRepr (pyRepr (Json.obj [("k", Json.str (String.mk (List.replicate 300 'x')))]))).length
      = 258 ∧
    ¬ (truncateRepr (pyRepr (Json.obj [("k", Json.str (String.mk (List.replicate 300 'x')))]))).length
      ≤ 256 ∧
    decodeResponse (.ok (Json.obj [("k", Json.str (String.mk (List.replicate 300 'x')))])) "foo"
      = .responseError ("Malformed JSON-RPC response to foo: "
          ++ truncateRepr (pyRepr (Json.obj [("k", Json.str (String.mk (List.replicate 300 'x')))]))) := by
  refine ⟨by decide, by decide, rfl⟩

/-- C6: for every certificate with no subjectAltName entries and a
commonName entry equal to the target hostname up to ASCII case (with both
drawn from the hostname alphabet — letters, digits, `-`, `.`, `_` — the
regime in which the embedded matcher is faithful to the source's
constructed regex), the hostname validator accepts. -/
theorem c6_cn_fallback_accepts (cert : PeerCert) (k CN H : String)
    (hsan : cert.subjectAltName = none)
    (hmem : (k, CN) ∈ cert.subject)
    (hkey : lowerStr k = "commonname")
    (hcase : CN.toList.map Char.toLower = H.toList.map Char.toLower)
    (halpha : ∀ c ∈ CN.toList, c.isAlphanum = true ∨ c = '-' ∨ c = '.' ∨ c = '_') :
    ValidateCertificateHostname cert H = true := by
  have hstar : '*' ∉ CN.toList := by
    intro hm
    rcases halpha '*' hm with h | h | h | h <;> exact absurd h (by decide)
  unfold ValidateCertificateHostname GetValidHostsForCert
  rw [hsan, List.any_eq_true]
  refine ⟨CN, ?_, globMatch_literal _ _ hcase hstar⟩
  exact List.mem_map.mpr ⟨(k, CN), List.mem_filter.mpr ⟨hmem, by simp [hkey]⟩, rfl⟩

/-- C6 witness: a concrete certificate with no SAN and commonName
`API.Example.COM` is accepted for the hostname `api.example.com`. -/
theorem c6_witness :
    ValidateCertificateHostname ⟨none, [("commonName", "API.Example.COM")]⟩
      "api.example.com" = true :=
  c6_cn_fallback_accepts ⟨none, [("commonName", "API.Example.COM")]⟩
    "commonName" "API.Example.COM" "api.example.com"
    rfl (by simp) (by decide) (by decide) (by decide)

/-- C2: for every host string `name:port` (a nonempty port-free,
bracket-free name followed by a nonempty digit port) on a connection with a
truthy CA bundle and hostname validation enabled, `connect` hands the
validator exactly the name with the `:port` suffix stripped.  The
stripping happens in `httplib.HTTPConnection._set_hostport` at
construction time — the `self.host.split(':', 0)[0]` expression in
`connect` itself is a no-op split — so the validator still never sees the
port. -/
theorem c2_validator_gets_bare_hostname
    (name portDigits : String) (key_file cert_file : Option String) (ca : String)
    (hname : name ≠ "")
    (hcolon : ':' ∉ name.toList) (hrb : ']' ∉ name.toList) (hlb : '[' ∉ name.toList)
    (hport : portDigits ≠ "") (hdig : ∀ c ∈ portDigits.toList, c.isDigit = true)
    (hca : ca ≠ "") :
    (mkCertValidatingConn (name ++ ":" ++ portDigits) none key_file cert_file (some ca)
        true).bind connectValidatorCall = some name.toList := by
  have hpcolon : ':' ∉ portDigits.toList := fun hm => absurd (hdig _ hm) (by decide)
  have hprb : ']' ∉ portDigits.toList := fun hm => absurd (hdig _ hm) (by decide)
  have hl : (name ++ ":" ++ portDigits).toList = name.toList ++ ':' :: portDigits.toList := by
    simp [String.toList]
  have hnorb : ']' ∉ (name.toList ++ ':' :: portDigits.toList) := by
    intro hm
    rcases List.mem_append.mp hm with h | h
    · exact hrb h
    · rcases List.mem_cons.mp h with h | h
      · exact absurd h (by decide)
      · exact hprb h
  have hassoc : name.toList ++ ':' :: portDigits.toList
      = (name.toList ++ [':']) ++ portDigits.toList := by simp
  have hdrop : (name.toList ++ ':' :: portDigits.toList).drop (name.toList.length + 1)
      = portDigits.toList := by
    rw [hassoc]
    have hlen : name.toList.length + 1 = (name.toList ++ [':']).length := by simp
    rw [hlen, List.drop_left]
  have htake : (name.toList ++ ':' :: portDigits.toList).take name.toList.length
      = name.toList := List.take_left _ _
  have hptl : portDigits.toList ≠ [] := by
    intro h0
    apply hport
    cases portDigits with
    | mk d =>
        simp [String.toList] at h0
        rw [h0]
  have hall : portDigits.toList.all Char.isDigit = true := List.all_eq_true.mpr hdig
  have hgt : Int.ofNat name.toList.length > -1 := by
    have h0 : (0 : Int) ≤ Int.ofNat name.toList.length := Int.ofNat_nonneg _
    omega
  have hshp : setHostPort (name.toList ++ ':' :: portDigits.toList) none
      = some (name.toList, digitsToNat portDigits.toList) := by
    unfold setHostPort
    rw [rfindIdx_append_last ':' _ _ hcolon hpcolon, rfindIdx_eq_none ']' _ hnorb]
    simp only [Option.map_some', Option.getD_some, Option.map_none', Option.getD_none, hdrop]
    rw [if_pos hgt, if_pos ⟨hptl, hall⟩, htake, bracketStrip_of_no_open name.toList hlb]
  unfold mkCertValidatingConn
  rw [hl, hshp]
  simp [connectValidatorCall, connectHostnameArg, pySplitMax, pyTruthyOptStr, hca]

/-- C2 witness: the connection constructed for `example.com:8443` with a CA
bundle and validation enabled hands the validator `example.com`. -/
theorem c2_witness :
    (mkCertValidatingConn ("example.com" ++ ":" ++ "8443") none none none (some "ca.pem")
        true).bind connectValidatorCall = some "example.com".toList :=
  c2_validator_gets_bare_hostname "example.com" "8443" none none "ca.pem"
    (by decide) (by decide) (by decide) (by decide) (by decide) (by decide) (by decide)

/-- C8: for every exchange answered with a non-200 status,
`Transport.request` raises `ProtocolError` carrying exactly that status
code and reason phrase, `handle_connection_error` is not invoked, and with
pooling the connection used stays cached for the host. -/
theorem c8_non200_keeps_pool_entry (pooled : Bool) (pool0 : Pool) (fresh : Nat)
    (host handler reason : String) (s : Nat) (hs : s ≠ 200) :
    (transportRequest pooled pool0 fresh (fun _ => .ok ⟨s, reason⟩) host handler).outcome
      = .protocolError (host ++ handler) s reason ∧
    (transportRequest pooled pool0 fresh (fun _ => .ok ⟨s, reason⟩) host
        handler).handleErrInvoked = false ∧
    (pooled = true →
      pyDictGet (transportRequest pooled pool0 fresh (fun _ => .ok ⟨s, reason⟩) host
            handler).pool host
        = some (transportRequest pooled pool0 fresh (fun _ => .ok ⟨s, reason⟩) host
            handler).connUsed) := by
  refine ⟨?_, ?_, ?_⟩
  · simp [transportRequest, hs]
  · simp [transportRequest, hs]
  · intro hp
    subst hp
    cases hlk : pyDictGet pool0 host with
    | some c => simp [transportRequest, hs, hlk]
    | none => simp [transportRequest, hs, hlk, pyDictGet_set_self]

/-- C8 witness: a concrete pooled request answered with status 500. -/
theorem c8_witness :
    (transportRequest true [] 7 (fun _ => .ok ⟨500, "Server Error"⟩) "example.com"
        "/rpc").outcome
      = .protocolError ("example.com" ++ "/rpc") 500 "Server Error" ∧
    (transportRequest true [] 7 (fun _ => .ok ⟨500, "Server Error"⟩) "example.com"
        "/rpc").handleErrInvoked = false ∧
    (true = true →
      pyDictGet (transportRequest true [] 7 (fun _ => .ok ⟨500, "Server Error"⟩)
            "example.com" "/rpc").pool "example.com"
        = some (transportRequest true [] 7 (fun _ => .ok ⟨500, "Server Error"⟩)
            "example.com" "/rpc").connUsed) :=
  c8_non200_keeps_pool_entry true [] 7 "example.com" "/rpc" "Server Error" 500 (by decide)

/-- C9: after a socket-level failure during a pooled request to a host, the
pool entry for that host is gone and `handle_connection_error` ran; the
next request to the host therefore uses the freshly created connection and
caches it, instead of reusing the failed one. -/
theorem c9_failure_evicts_then_fresh (pool0 : Pool) (fresh1 fresh2 : Nat)
    (host handler m : String) :
    pyDictGet (transportRequest true pool0 fresh1 (fun _ => .error (.socketError m)) host
        handler).pool host = none ∧
    (transportRequest true pool0 fresh1 (fun _ => .error (.socketError m)) host
        handler).handleErrInvoked = true ∧
    (transportRequest true
        (transportRequest true pool0 fresh1 (fun _ => .error (.socketError m)) host
          handler).pool
        fresh2 (fun _ => .ok ⟨200, "OK"⟩) host handler).connUsed = fresh2 ∧
    pyDictGet (transportRequest true
        (transportRequest true pool0 fresh1 (fun _ => .error (.socketError m)) host
          handler).pool
        fresh2 (fun _ => .ok ⟨200, "OK"⟩) host handler).pool host = some fresh2 := by
  have h1 : pyDictGet (transportRequest true pool0 fresh1
      (fun _ => .error (.socketError m)) host handler).pool host = none := by
    cases hlk : pyDictGet pool0 host with
    | some c => simp [transportRequest, hlk, pyDictGet_del_self]
    | none => simp [transportRequest, hlk, pyDictGet_del_self, pyDictGet_set_self]
  refine ⟨h1, ?_, ?_, ?_⟩
  · cases hlk : pyDictGet pool0 host with
    | some c => simp [transportRequest, hlk]
    | none => simp [transportRequest, hlk, pyDictGet_set_self]
  · generalize hP : (transportRequest true pool0 fresh1
        (fun _ => .error (.socketError m)) host handler).pool = P at h1 ⊢
    simp [transportRequest, h1]
  · generalize hP : (transportRequest true pool0 fresh1
        (fun _ => .error (.socketError m)) host handler).pool = P at h1 ⊢
    simp [transportRequest, h1, pyDictGet_set_self]

/-- C3 amended: when hostname validation rejects the peer certificate
during a `Transport`/`SafeTransport` request, the resulting
`InvalidCertificateException` is caught by the transport's generic
`except (socket.error, httplib.HTTPException)` clause — being an
`HTTPException` subclass — and the error surfaced to the caller of
`request` is a generic `ConnectionError` whose message embeds the original
exception's `repr`; `handle_connection_error` runs for it. -/
theorem c3_amended_downgraded_to_connection_error (pooled : Bool) (pool0 : Pool)
    (fresh : Nat) (host handler certHost reason : String) :
    (transportRequest pooled pool0 fresh
        (fun _ => .error (.invalidCertificate certHost reason)) host handler).outcome
      = .connectionError ("Error connecting to host " ++ host
          ++ ": InvalidCertificateException()") ∧
    (transportRequest pooled pool0 fresh
        (fun _ => .error (.invalidCertificate certHost reason)) host
        handler).handleErrInvoked = true := by
  cases pooled with
  | false =>
      refine ⟨?_, ?_⟩ <;>
        simp [transportRequest, PyExc.reprStr, String.append_assoc]
  | true =>
      cases hlk : pyDictGet pool0 host with
      | some c =>
          refine ⟨?_, ?_⟩ <;>
            simp [transportRequest, PyExc.reprStr, hlk, String.append_assoc]
      | none =>
          refine ⟨?_, ?_⟩ <;>
            simp [transportRequest, PyExc.reprStr, hlk, pyDictGet_set_self,
              String.append_assoc]

/-- C4 amended: a decoded JSON object carrying neither a `result` key nor
an `error` key makes `ServerProxy._request` raise the response-format
error, and the representation of the payload embedded in the message is
bounded by 258 characters (representations longer than 256 characters are
cut to their first 255 characters plus a three-character ellipsis). -/
theorem c4_amended_truncated_to_258 (l : List (String × Json)) (methodname : String)
    (hr : l.any (fun p => p.1 == "result") = false)
    (he : l.any (fun p => p.1 == "error") = false) :
    decodeResponse (.ok (Json.obj l)) methodname
      = .responseError ("Malformed JSON-RPC response to " ++ methodname ++ ": "
          ++ truncateRepr (pyRepr (Json.obj l))) ∧
    (truncateRepr (pyRepr (Json.obj l))).length ≤ 258 := by
  constructor
  · simp [decodeResponse, Json.isNull, pyContains, hr, he]
  · exact truncateRepr_length_le _

/-- C4 amended witness: a concrete object with neither key. -/
theorem c4_amended_witness :
    decodeResponse (.ok (Json.obj [("a", Json.num 1)])) "m"
      = .responseError ("Malformed JSON-RPC response to m: "
          ++ truncateRepr (pyRepr (Json.obj [("a", Json.num 1)]))) ∧
    (truncateRepr (pyRepr (Json.obj [("a", Json.num 1)]))).length ≤ 258 :=
  c4_amended_truncated_to_258 [("a", Json.num 1)] "m" rfl rfl

/-- C10: `ServerProxy._request` passes `self.extra_headers` itself to the
transport, which mutates it in place, so after a call (on a client whose
configured headers carry no content-type key) the client's `extra_headers`
permanently holds the injected `User-Agent`, `Content-Type` and
`Content-Length` entries — and `Connection: keep-alive` when pooling — and
this mutated mapping is exactly what the next request starts from, where
the entries persist. -/
theorem c10_request_mutates_extra_headers (pooled : Bool) (st : ClientState) (n1 n2 : Nat)
    (hct : (lowerKeys st.extra_headers).any (fun x => x == "content-type") = false) :
    (clientAfterCall pooled st n1).extra_headers
      = requestHeaders pooled st.extra_headers n1 ∧
    pyDictGet (clientAfterCall pooled st n1).extra_headers "User-Agent"
      = some (.str "JSON-RPC Client") ∧
    pyDictGet (clientAfterCall pooled st n1).extra_headers "Content-Type"
      = some (.str "application/json") ∧
    pyDictGet (clientAfterCall pooled st n1).extra_headers "Content-Length"
      = some (.int n1) ∧
    (pooled = true →
      pyDictGet (clientAfterCall pooled st n1).extra_headers "Connection"
        = some (.str "keep-alive")) ∧
    pyDictGet (clientAfterCall pooled (clientAfterCall pooled st n1) n2).extra_headers
        "User-Agent" = some (.str "JSON-RPC Client") ∧
    (pooled = true →
      pyDictGet (clientAfterCall pooled (clientAfterCall pooled st n1) n2).extra_headers
          "Connection" = some (.str "keep-alive")) := by
  refine ⟨rfl, ?_, ?_, ?_, ?_, ?_, ?_⟩
  · exact inject_get_ua _ _
  · show pyDictGet (requestHeaders pooled st.extra_headers n1) "Content-Type" = _
    unfold requestHeaders
    apply inject_get_ct
    cases pooled with
    | false => simpa using hct
    | true =>
        simp only [if_pos rfl]
        exact lowerKeys_set_keeps_no_ct _ _ _ (by decide) hct
  · exact inject_get_cl _ _
  · intro hp
    subst hp
    show pyDictGet (requestHeaders true st.extra_headers n1) "Connection" = _
    unfold requestHeaders
    rw [inject_get_other _ _ _ (by decide) (by decide) (by decide)]
    simp only [if_pos rfl]
    exact pyDictGet_set_self _ _ _
  · exact inject_get_ua _ _
  · intro hp
    subst hp
    show pyDictGet (requestHeaders true (clientAfterCall true st n1).extra_headers n2)
        "Connection" = _
    unfold requestHeaders
    rw [inject_get_other _ _ _ (by decide) (by decide) (by decide)]
    simp only [if_pos rfl]
    exact pyDictGet_set_self _ _ _

/-- C10 witness: a pooled client constructed with empty `extra_headers`,
after two calls with body lengths 5 and 7. -/
theorem c10_witness :
    (clientAfterCall true ⟨0, []⟩ 5).extra_headers = requestHeaders true [] 5 ∧
    pyDictGet (clientAfterCall true ⟨0, []⟩ 5).extra_headers "User-Agent"
      = some (.str "JSON-RPC Client") ∧
    pyDictGet (clientAfterCall true ⟨0, []⟩ 5).extra_headers "Content-Type"
      = some (.str "application/json") ∧
    pyDictGet (clientAfterCall true ⟨0, []⟩ 5).extra_headers "Content-Length"
      = some (.int 5) ∧
    (true = true →
      pyDictGet (clientAfterCall true ⟨0, []⟩ 5).extra_headers "Connection"
        = some (.str "keep-alive")) ∧
    pyDictGet (clientAfterCall true (clientAfterCall true ⟨0, []⟩ 5) 7).extra_headers
        "User-Agent" = some (.str "JSON-RPC Client") ∧
    (true = true →
      pyDictGet (clientAfterCall true (clientAfterCall true ⟨0, []⟩ 5) 7).extra_headers
          "Connection" = some (.str "keep-alive")) :=
  c10_request_mutates_extra_headers true ⟨0, []⟩ 5 7 rfl
